import Mathlib

/-!
Verification of the derived-attribute computation engine of the manpower
planning dashboard (`src/dashboard.py`) against its natural-language
specification.

Embedding conventions:
* Python floats are modelled as exact rationals (`ℚ`) together with an
  explicit `nan` marker; the claims under study concern the error-handling
  structure and exact small-denominator arithmetic, not IEEE rounding.
* A record (Python `dict`) is modelled as an association list
  `List (String × Val)`; `setR` is in-place assignment (replace the first
  binding or append), `lookupR` is key access (`none` models `KeyError`).
* A formula string of the registry is modelled by the deep expression type
  `Expr`, one constructor per syntactic form occurring in the registry:
  numeric literal, `row['f']` access, the arithmetic operators, `max(a, b)`,
  `sum([row[f1], ..., row[fn]])` (every `sum` in the registry is applied to a
  literal list of `row[...]` accesses) and `roundup(e, d)`.
* Expression evaluation returns `Option Val`; `none` models an exception
  escaping the expression (missing field, division by zero, `math.ceil` of
  NaN).  `compute_derived` catches it and stores NaN, as in the source.
-/

/-- Numeric value of a record field: an exact number or the NaN sentinel. -/
inductive Val where
  | num : ℚ → Val
  | nan : Val
deriving DecidableEq, Repr

/-- Python float addition: NaN is absorbing. -/
def vadd : Val → Val → Val
  | Val.num a, Val.num b => Val.num (a + b)
  | _, _ => Val.nan

/-- Python float subtraction: NaN is absorbing. -/
def vsub : Val → Val → Val
  | Val.num a, Val.num b => Val.num (a - b)
  | _, _ => Val.nan

/-- Python float multiplication: NaN is absorbing. -/
def vmul : Val → Val → Val
  | Val.num a, Val.num b => Val.num (a * b)
  | _, _ => Val.nan

/-- Python float division: a zero divisor raises `ZeroDivisionError`
(modelled as `none`) whatever the numerator is; otherwise NaN in either
operand yields NaN. -/
def vdiv (x y : Val) : Option Val :=
  match y with
  | Val.num b =>
      if b = 0 then none
      else
        match x with
        | Val.num a => some (Val.num (a / b))
        | Val.nan => some Val.nan
  | Val.nan => some Val.nan

/-- Python `<` on floats: any comparison involving NaN is false. -/
def vlt : Val → Val → Bool
  | Val.num a, Val.num b => decide (a < b)
  | _, _ => false

/-- Python `max(a, b)`: returns `b` if `b > a`, else `a`.  In particular
`max(a, nan) = a` and `max(nan, b) = nan`. -/
def pymax (a b : Val) : Val :=
  if vlt a b then b else a

/-- Python `sum` of a list of values, starting from `0`. -/
def vsum (vs : List Val) : Val :=
  vs.foldl vadd (Val.num 0)

/-- Source `roundup(x, digits)`: `factor = 10 ** digits;
return math.ceil(x * factor) / factor`.  `math.ceil` of NaN raises
`ValueError`, modelled as `none`. -/
def roundup (x : Val) (digits : ℕ) : Option Val :=
  match x with
  | Val.nan => none
  | Val.num q =>
      some (Val.num ((⌈q * (10 : ℚ) ^ digits⌉ : ℚ) / (10 : ℚ) ^ digits))

/-- A record: mapping from field name to value, as an association list. -/
abbrev Row := List (String × Val)

/-- Key access `row[k]`; `none` models a raised `KeyError`. -/
def lookupR : Row → String → Option Val
  | [], _ => none
  | (k', v) :: r, k => if k' = k then some v else lookupR r k

/-- Assignment `row[k] = v`: replace the first binding of `k`, or append. -/
def setR : Row → String → Val → Row
  | [], k, v => [(k, v)]
  | (k', v') :: r, k, v =>
      if k' = k then (k, v) :: r else (k', v') :: setR r k v

/-- Deep embedding of the formula expressions appearing in the registry. -/
inductive Expr where
  | lit : ℚ → Expr
  | rowF : String → Expr
  | add : Expr → Expr → Expr
  | sub : Expr → Expr → Expr
  | mul : Expr → Expr → Expr
  | div : Expr → Expr → Expr
  | max2 : Expr → Expr → Expr
  | sumRows : List String → Expr
  | roundupE : Expr → ℕ → Expr
deriving DecidableEq, Repr

/-- Left-to-right evaluation of `[row[f1], ..., row[fn]]`; a missing field
raises (`none`). -/
def lookupMany (r : Row) : List String → Option (List Val)
  | [] => some []
  | f :: fs =>
      match lookupR r f, lookupMany r fs with
      | some v, some vs => some (v :: vs)
      | _, _ => none

/-- Evaluation of a formula expression against a record.  `none` models an
exception escaping the whole expression. -/
def eval : Expr → Row → Option Val
  | Expr.lit q, _ => some (Val.num q)
  | Expr.rowF f, r => lookupR r f
  | Expr.add a b, r => do
      let x ← eval a r
      let y ← eval b r
      pure (vadd x y)
  | Expr.sub a b, r => do
      let x ← eval a r
      let y ← eval b r
      pure (vsub x y)
  | Expr.mul a b, r => do
      let x ← eval a r
      let y ← eval b r
      pure (vmul x y)
  | Expr.div a b, r => do
      let x ← eval a r
      let y ← eval b r
      vdiv x y
  | Expr.max2 a b, r => do
      let x ← eval a r
      let y ← eval b r
      pure (pymax x y)
  | Expr.sumRows fs, r => do
      let vs ← lookupMany r fs
      pure (vsum vs)
  | Expr.roundupE a d, r => do
      let x ← eval a r
      roundup x d

/-- Field names read by an expression (the `row['...']` accesses). -/
def directFields : Expr → List String
  | Expr.lit _ => []
  | Expr.rowF f => [f]
  | Expr.add a b => directFields a ++ directFields b
  | Expr.sub a b => directFields a ++ directFields b
  | Expr.mul a b => directFields a ++ directFields b
  | Expr.div a b => directFields a ++ directFields b
  | Expr.max2 a b => directFields a ++ directFields b
  | Expr.sumRows fs => fs
  | Expr.roundupE a _ => directFields a

/-- Identifiers (global or local names) occurring in an expression as it is
written in the registry: `row` for field accesses, plus the called helper
functions `roundup`, `max` and `sum`. -/
def identsOf : Expr → List String
  | Expr.lit _ => []
  | Expr.rowF _ => ["row"]
  | Expr.add a b => identsOf a ++ identsOf b
  | Expr.sub a b => identsOf a ++ identsOf b
  | Expr.mul a b => identsOf a ++ identsOf b
  | Expr.div a b => identsOf a ++ identsOf b
  | Expr.max2 a b => "max" :: (identsOf a ++ identsOf b)
  | Expr.sumRows fs => "sum" :: (if fs.isEmpty then [] else ["row"])
  | Expr.roundupE a _ => "roundup" :: identsOf a

/-- The Formula Registry of `src/dashboard.py` (`FORMULAS`), in declared
order, each Python expression string translated to an `Expr`. -/
def FORMULAS : List (String × Expr) := [
  ("in_avg_wt_cn", Expr.div (Expr.rowF "in_ndx_vol_wt") (Expr.rowF "in_ndx_out_vol")),
  ("out_avg_wt_cn", Expr.div (Expr.rowF "out_ndx_vol_wt") (Expr.rowF "out_ndx_out_vol")),
  ("packet", Expr.div (Expr.max2 (Expr.rowF "in_docs") (Expr.rowF "out_docs")) (Expr.lit 15)),
  ("bag_doc", Expr.div (Expr.div (Expr.max2 (Expr.rowF "in_docs") (Expr.rowF "out_docs")) (Expr.lit 15)) (Expr.lit 15)),
  ("vol_bag_non_doc", Expr.div (Expr.max2 (Expr.rowF "in_ndx_out_vol") (Expr.rowF "out_ndx_out_vol")) (Expr.lit 13)),
  ("wt_bag_non_doc", Expr.div (Expr.max2 (Expr.rowF "in_ndx_vol_wt") (Expr.rowF "out_ndx_vol_wt")) (Expr.lit 25)),
  ("out_per_day_docs", Expr.roundupE (Expr.div (Expr.rowF "out_docs") (Expr.lit 25)) 0),
  ("out_per_day_non_docs", Expr.roundupE (Expr.div (Expr.rowF "out_non_docs") (Expr.lit 25)) 0),
  ("out_per_day_air", Expr.roundupE (Expr.div (Expr.rowF "out_air") (Expr.lit 25)) 0),
  ("out_per_day_surface", Expr.roundupE (Expr.div (Expr.rowF "out_surface") (Expr.lit 25)) 0),
  ("out_per_day_ndx_out_vol", Expr.roundupE (Expr.div (Expr.rowF "out_ndx_out_vol") (Expr.lit 25)) 0),
  ("out_per_day_ndx_vol_wt", Expr.roundupE (Expr.div (Expr.rowF "out_ndx_vol_wt") (Expr.lit 25)) 0),
  ("in_per_day_docs", Expr.roundupE (Expr.div (Expr.rowF "in_docs") (Expr.lit 25)) 0),
  ("in_per_day_non_docs", Expr.roundupE (Expr.div (Expr.rowF "in_non_docs") (Expr.lit 25)) 0),
  ("in_per_day_air", Expr.roundupE (Expr.div (Expr.rowF "in_air") (Expr.lit 25)) 0),
  ("in_per_day_surface", Expr.roundupE (Expr.div (Expr.rowF "in_surface") (Expr.lit 25)) 0),
  ("in_per_day_ndx_out_vol", Expr.roundupE (Expr.div (Expr.rowF "in_ndx_out_vol") (Expr.lit 25)) 0),
  ("in_per_day_ndx_vol_wt", Expr.roundupE (Expr.div (Expr.rowF "in_ndx_vol_wt") (Expr.lit 25)) 0),
  ("per_day_ndx", Expr.max2 (Expr.rowF "out_per_day_non_docs") (Expr.rowF "in_per_day_non_docs")),
  ("per_day_dox", Expr.max2 (Expr.rowF "out_per_day_docs") (Expr.rowF "in_per_day_docs")),
  ("per_day_packet", Expr.div (Expr.rowF "packet") (Expr.lit 25)),
  ("per_day_bag_doc", Expr.div (Expr.rowF "bag_doc") (Expr.lit 25)),
  ("per_day_bag_non_doc", Expr.div (Expr.max2 (Expr.rowF "vol_bag_non_doc") (Expr.rowF "wt_bag_non_doc")) (Expr.lit 25)),
  ("per_day_air", Expr.div (Expr.rowF "out_per_day_air") (Expr.lit 12)),
  ("cd_unit", Expr.div (Expr.mul (Expr.add (Expr.rowF "per_day_bag_doc") (Expr.rowF "per_day_bag_non_doc")) (Expr.lit 35)) (Expr.lit 3600)),
  ("with_sorter_sorter_unit", Expr.div (Expr.mul (Expr.mul (Expr.lit 20.16) (Expr.rowF "per_day_ndx")) (Expr.lit 0.55)) (Expr.lit 3600)),
  ("with_sorter_non_cony", Expr.div (Expr.mul (Expr.mul (Expr.rowF "with_sorter_sorter_unit") (Expr.lit 0.3)) (Expr.lit 1.5)) (Expr.lit 0.55)),
  ("manual_sorting_units", Expr.div (Expr.mul (Expr.rowF "per_day_ndx") (Expr.lit 31.1)) (Expr.lit 3600)),
  ("xray_unit", Expr.div (Expr.mul (Expr.rowF "per_day_air") (Expr.lit 15)) (Expr.lit 3600)),
  ("air_unit", Expr.div (Expr.mul (Expr.rowF "per_day_air") (Expr.lit 38)) (Expr.lit 3600)),
  ("surface_unit", Expr.div (Expr.mul (Expr.sub (Expr.add (Expr.rowF "per_day_bag_doc") (Expr.rowF "per_day_bag_non_doc")) (Expr.rowF "per_day_air")) (Expr.lit 38)) (Expr.lit 3600)),
  ("doc_unit", Expr.div (Expr.mul (Expr.mul (Expr.lit 0.6) (Expr.rowF "per_day_dox")) (Expr.lit 10.02222222)) (Expr.lit 3600)),
  ("exception_han_unit", Expr.div (Expr.mul (Expr.mul (Expr.lit 0.05) (Expr.lit 30)) (Expr.rowF "per_day_ndx")) (Expr.lit 3600)),
  ("skidder_unit", Expr.mul (Expr.lit 0.1) (Expr.sumRows ["cd_unit", "with_sorter_sorter_unit", "with_sorter_non_cony", "manual_sorting_units", "xray_unit", "air_unit", "surface_unit", "doc_unit", "exception_han_unit"])),
  ("total", Expr.mul (Expr.lit 1.2) (Expr.sub (Expr.sumRows ["cd_unit", "with_sorter_sorter_unit", "with_sorter_non_cony", "manual_sorting_units", "skidder_unit", "xray_unit", "air_unit", "surface_unit", "doc_unit", "exception_han_unit"]) (Expr.rowF "manual_sorting_units"))),
  ("manpower_in_units_cd_unit", Expr.roundupE (Expr.div (Expr.mul (Expr.rowF "cd_unit") (Expr.lit 1.25)) (Expr.rowF "at")) 0),
  ("manpower_in_units_with_sorter_sorter_unit", Expr.roundupE (Expr.div (Expr.mul (Expr.rowF "with_sorter_sorter_unit") (Expr.lit 1.25)) (Expr.rowF "at")) 0),
  ("manpower_in_units_with_sorter_non_cony", Expr.roundupE (Expr.div (Expr.mul (Expr.rowF "with_sorter_non_cony") (Expr.lit 1.25)) (Expr.rowF "at")) 0),
  ("manpower_in_units_with_no_sorter_manual_sorting_units", Expr.roundupE (Expr.div (Expr.mul (Expr.rowF "manual_sorting_units") (Expr.lit 1.25)) (Expr.rowF "at")) 0),
  ("manpower_in_units_skidder_unit", Expr.roundupE (Expr.div (Expr.mul (Expr.rowF "skidder_unit") (Expr.lit 1.25)) (Expr.rowF "at")) 0),
  ("manpower_in_units_xray_unit", Expr.roundupE (Expr.div (Expr.mul (Expr.rowF "xray_unit") (Expr.lit 1.25)) (Expr.rowF "at")) 0),
  ("manpower_in_units_air_unit", Expr.roundupE (Expr.div (Expr.mul (Expr.rowF "air_unit") (Expr.lit 1.25)) (Expr.rowF "at")) 0),
  ("manpower_in_units_surface_unit", Expr.roundupE (Expr.div (Expr.mul (Expr.rowF "surface_unit") (Expr.lit 1.25)) (Expr.rowF "at")) 0),
  ("manpower_in_units_doc_unit", Expr.roundupE (Expr.div (Expr.mul (Expr.rowF "doc_unit") (Expr.lit 1.25)) (Expr.rowF "at")) 0),
  ("manpower_in_units_exception_han_unit", Expr.roundupE (Expr.div (Expr.mul (Expr.rowF "exception_han_unit") (Expr.lit 1.25)) (Expr.rowF "at")) 0),
  ("manpower_with_sorter", Expr.sub (Expr.sumRows ["manpower_in_units_cd_unit", "manpower_in_units_with_sorter_sorter_unit", "manpower_in_units_with_sorter_non_cony", "manpower_in_units_with_no_sorter_manual_sorting_units", "manpower_in_units_skidder_unit", "manpower_in_units_xray_unit", "manpower_in_units_air_unit", "manpower_in_units_surface_unit", "manpower_in_units_doc_unit", "manpower_in_units_exception_han_unit"]) (Expr.rowF "manpower_in_units_with_no_sorter_manual_sorting_units")),
  ("manpower_without_sorter", Expr.sub (Expr.sub (Expr.sumRows ["manpower_in_units_cd_unit", "manpower_in_units_with_sorter_sorter_unit", "manpower_in_units_with_sorter_non_cony", "manpower_in_units_with_no_sorter_manual_sorting_units", "manpower_in_units_skidder_unit", "manpower_in_units_xray_unit", "manpower_in_units_air_unit", "manpower_in_units_surface_unit", "manpower_in_units_doc_unit", "manpower_in_units_exception_han_unit"]) (Expr.rowF "manpower_in_units_with_sorter_sorter_unit")) (Expr.rowF "manpower_in_units_with_sorter_non_cony"))
]

/-- Base inputs the user is allowed to change (`BASE_INPUT_FIELDS`). -/
def BASE_INPUT_FIELDS : List String := [
  "out_docs", "out_non_docs", "out_air", "out_surface", "out_ndx_out_vol", "out_ndx_vol_wt",
  "in_docs", "in_non_docs", "in_air", "in_surface", "in_ndx_out_vol", "in_ndx_vol_wt",
  "sorter", "at"
]

/-- Correlated base inputs (`CORRELATED_SETS`); advisory metadata only. -/
def CORRELATED_SETS : List (String × String) := [
  ("in_ndx_out_vol", "in_ndx_vol_wt"),
  ("out_ndx_out_vol", "out_ndx_vol_wt")
]

/-- Value stored by one registry step: the formula's value on success, NaN
when an exception was caught (`try ... except Exception: row[key] = nan`). -/
def evalN (e : Expr) (r : Row) : Val :=
  match eval e r with
  | some v => v
  | none => Val.nan

/-- One iteration of the engine loop: skip a locked key, otherwise assign
the evaluated (or NaN) value. -/
def applyEntry (locked : List String) (r : Row) (p : String × Expr) : Row :=
  if p.1 ∈ locked then r else setR r p.1 (evalN p.2 r)

/-- The engine loop over an arbitrary entry list. -/
def computeList (l : List (String × Expr)) (r : Row) (locked : List String) : Row :=
  l.foldl (applyEntry locked) r

/-- Source `compute_derived(row, locked_keys)`: evaluate the registry in
declared order, never overwriting locked keys.  (`locked_keys=None` in the
source is the empty list here.) -/
def compute_derived (row : Row) (locked_keys : List String) : Row :=
  computeList FORMULAS row locked_keys

/-- Record state after the first `i` registry entries have been processed. -/
def computeUpTo (i : ℕ) (row : Row) (locked : List String) : Row :=
  computeList (FORMULAS.take i) row locked

/-! ### Record lemmas -/

theorem lookupR_setR_self (r : Row) (k : String) (v : Val) :
    lookupR (setR r k v) k = some v := by
  induction r with
  | nil => simp [setR, lookupR]
  | cons p r ih =>
      by_cases h : p.1 = k
      · simp [setR, h, lookupR]
      · simp [setR, h, lookupR, ih]

theorem lookupR_setR_ne (r : Row) (k k' : String) (v : Val) (h : k' ≠ k) :
    lookupR (setR r k v) k' = lookupR r k' := by
  induction r with
  | nil => simp [setR, lookupR, Ne.symm h]
  | cons p r ih =>
      obtain ⟨a, b⟩ := p
      by_cases hp : a = k
      · subst hp
        simp [setR, lookupR, Ne.symm h, h]
      · simp only [setR, hp, if_false, lookupR]
        by_cases hp' : a = k'
        · simp [hp']
        · simp [hp', ih]

theorem setR_id (r : Row) (k : String) (v : Val) (h : lookupR r k = some v) :
    setR r k v = r := by
  induction r with
  | nil => simp [lookupR] at h
  | cons p r ih =>
      obtain ⟨a, b⟩ := p
      by_cases hp : a = k
      · subst hp
        simp [lookupR] at h
        simp [setR, h]
      · simp only [lookupR, hp, if_false] at h
        simp [setR, hp, ih h]

/-! ### Engine-loop lemmas -/

theorem applyEntry_locked (locked : List String) (r : Row) (p : String × Expr)
    (h : p.1 ∈ locked) : applyEntry locked r p = r := by
  simp [applyEntry, h]

theorem applyEntry_not_locked (locked : List String) (r : Row) (p : String × Expr)
    (h : p.1 ∉ locked) : applyEntry locked r p = setR r p.1 (evalN p.2 r) := by
  simp [applyEntry, h]

theorem lookupR_applyEntry_ne (locked : List String) (r : Row) (p : String × Expr)
    (k : String) (h : k ≠ p.1) :
    lookupR (applyEntry locked r p) k = lookupR r k := by
  by_cases hl : p.1 ∈ locked
  · simp [applyEntry_locked _ _ _ hl]
  · simp [applyEntry_not_locked _ _ _ hl, lookupR_setR_ne _ _ _ _ h]

theorem computeList_nil (r : Row) (locked : List String) :
    computeList [] r locked = r := rfl

theorem computeList_cons (p : String × Expr) (l : List (String × Expr)) (r : Row)
    (locked : List String) :
    computeList (p :: l) r locked = computeList l (applyEntry locked r p) locked := rfl

theorem computeList_append (l₁ l₂ : List (String × Expr)) (r : Row)
    (locked : List String) :
    computeList (l₁ ++ l₂) r locked = computeList l₂ (computeList l₁ r locked) locked := by
  simp [computeList, List.foldl_append]

theorem computeList_lookup_of_not_key (l : List (String × Expr)) (r : Row)
    (locked : List String) (k : String) (h : k ∉ l.map Prod.fst) :
    lookupR (computeList l r locked) k = lookupR r k := by
  induction l generalizing r with
  | nil => rfl
  | cons p l ih =>
      simp only [List.map_cons, List.mem_cons, not_or] at h
      rw [computeList_cons, ih _ h.2, lookupR_applyEntry_ne _ _ _ _ h.1]

theorem computeList_lookup_locked (l : List (String × Expr)) (r : Row)
    (locked : List String) (k : String) (h : k ∈ locked) :
    lookupR (computeList l r locked) k = lookupR r k := by
  induction l generalizing r with
  | nil => rfl
  | cons p l ih =>
      rw [computeList_cons, ih]
      by_cases hp : p.1 ∈ locked
      · rw [applyEntry_locked _ _ _ hp]
      · have : k ≠ p.1 := fun hk => hp (hk ▸ h)
        rw [lookupR_applyEntry_ne _ _ _ _ this]

theorem computeList_isSome (l : List (String × Expr)) (r : Row)
    (locked : List String) (k : String) (h : (lookupR r k).isSome = true) :
    (lookupR (computeList l r locked) k).isSome = true := by
  induction l generalizing r with
  | nil => exact h
  | cons p l ih =>
      rw [computeList_cons]
      refine ih _ ?_
      by_cases hl : p.1 ∈ locked
      · rw [applyEntry_locked _ _ _ hl]; exact h
      · rw [applyEntry_not_locked _ _ _ hl]
        by_cases hk : k = p.1
        · subst hk; rw [lookupR_setR_self]; rfl
        · rw [lookupR_setR_ne _ _ _ _ hk]; exact h

theorem computeList_present (l : List (String × Expr)) (r : Row)
    (locked : List String) (p : String × Expr) (hp : p ∈ l) (h : p.1 ∉ locked) :
    (lookupR (computeList l r locked) p.1).isSome = true := by
  induction l generalizing r with
  | nil => cases hp
  | cons q l ih =>
      rw [computeList_cons]
      rcases List.mem_cons.mp hp with h1 | h1
      · subst h1
        refine computeList_isSome _ _ _ _ ?_
        rw [applyEntry_not_locked _ _ _ h, lookupR_setR_self]
        rfl
      · exact ih _ h1

/-! ### Evaluation lemmas -/

theorem lookupMany_congr (fs : List String) (r₁ r₂ : Row)
    (h : ∀ f ∈ fs, lookupR r₁ f = lookupR r₂ f) :
    lookupMany r₁ fs = lookupMany r₂ fs := by
  induction fs with
  | nil => rfl
  | cons f fs ih =>
      simp only [lookupMany]
      rw [h f (List.mem_cons_self _ _), ih fun g hg => h g (List.mem_cons_of_mem _ hg)]

theorem eval_congr (e : Expr) (r₁ r₂ : Row)
    (h : ∀ f ∈ directFields e, lookupR r₁ f = lookupR r₂ f) :
    eval e r₁ = eval e r₂ := by
  induction e with
  | lit q => rfl
  | rowF f => exact h f (by simp [directFields])
  | add a b iha ihb =>
      simp only [eval]
      rw [iha fun f hf => h f (by simp [directFields, hf]),
        ihb fun f hf => h f (by simp [directFields, hf])]
  | sub a b iha ihb =>
      simp only [eval]
      rw [iha fun f hf => h f (by simp [directFields, hf]),
        ihb fun f hf => h f (by simp [directFields, hf])]
  | mul a b iha ihb =>
      simp only [eval]
      rw [iha fun f hf => h f (by simp [directFields, hf]),
        ihb fun f hf => h f (by simp [directFields, hf])]
  | div a b iha ihb =>
      simp only [eval]
      rw [iha fun f hf => h f (by simp [directFields, hf]),
        ihb fun f hf => h f (by simp [directFields, hf])]
  | max2 a b iha ihb =>
      simp only [eval]
      rw [iha fun f hf => h f (by simp [directFields, hf]),
        ihb fun f hf => h f (by simp [directFields, hf])]
  | sumRows fs =>
      simp only [eval]
      rw [lookupMany_congr fs _ _ fun f hf => h f (by simpa [directFields] using hf)]
  | roundupE a d iha =>
      simp only [eval]
      rw [iha fun f hf => h f (by simpa [directFields] using hf)]

theorem lookupMany_none_of_missing (fs : List String) (r : Row) (f : String)
    (hf : f ∈ fs) (h : lookupR r f = none) : lookupMany r fs = none := by
  induction fs with
  | nil => cases hf
  | cons g fs ih =>
      rcases List.mem_cons.mp hf with h1 | h1
      · subst h1; simp [lookupMany, h]
      · simp only [lookupMany, ih h1]
        cases lookupR r g <;> rfl

theorem eval_none_of_missing (e : Expr) (r : Row) (f : String)
    (hf : f ∈ directFields e) (h : lookupR r f = none) : eval e r = none := by
  induction e with
  | lit q => simp [directFields] at hf
  | rowF g =>
      simp only [directFields, List.mem_singleton] at hf
      subst hf; simpa [eval] using h
  | add a b iha ihb =>
      simp only [directFields, List.mem_append] at hf
      rcases hf with h1 | h1
      · simp [eval, iha h1]
      · simp only [eval, ihb h1]
        cases eval a r <;> rfl
  | sub a b iha ihb =>
      simp only [directFields, List.mem_append] at hf
      rcases hf with h1 | h1
      · simp [eval, iha h1]
      · simp only [eval, ihb h1]
        cases eval a r <;> rfl
  | mul a b iha ihb =>
      simp only [directFields, List.mem_append] at hf
      rcases hf with h1 | h1
      · simp [eval, iha h1]
      · simp only [eval, ihb h1]
        cases eval a r <;> rfl
  | div a b iha ihb =>
      simp only [directFields, List.mem_append] at hf
      rcases hf with h1 | h1
      · simp [eval, iha h1]
      · simp only [eval, ihb h1]
        cases eval a r <;> rfl
  | max2 a b iha ihb =>
      simp only [directFields, List.mem_append] at hf
      rcases hf with h1 | h1
      · simp [eval, iha h1]
      · simp only [eval, ihb h1]
        cases eval a r <;> rfl
  | sumRows fs =>
      simp only [directFields] at hf
      simp [eval, lookupMany_none_of_missing fs r f hf h]
  | roundupE a d iha =>
      simp only [directFields] at hf
      simp [eval, iha hf]

/-! ### Registry facts -/

theorem FORMULAS_keys_nodup : (FORMULAS.map Prod.fst).Nodup :=
  of_decide_eq_true (by with_unfolding_all rfl)

theorem key_take_mem (i : ℕ) (h : i < FORMULAS.length) :
    (FORMULAS.get ⟨i, h⟩).1 ∈ (FORMULAS.take (i + 1)).map Prod.fst := by
  refine List.mem_map_of_mem Prod.fst ?_
  have hlen : i < (FORMULAS.take (i + 1)).length := by
    simp [List.length_take]
    omega
  have hgt : (FORMULAS.take (i + 1)).get ⟨i, hlen⟩ = FORMULAS.get ⟨i, h⟩ := by
    simp [List.getElem_take]
  exact hgt ▸ List.get_mem _ _ _

theorem key_not_in_drop (i : ℕ) (h : i < FORMULAS.length) :
    (FORMULAS.get ⟨i, h⟩).1 ∉ (FORMULAS.drop (i + 1)).map Prod.fst := by
  have hnd := FORMULAS_keys_nodup
  rw [show FORMULAS = FORMULAS.take (i + 1) ++ FORMULAS.drop (i + 1) from
    (List.take_append_drop _ _).symm, List.map_append] at hnd
  exact fun hmem => (List.disjoint_of_nodup_append hnd) (key_take_mem i h) hmem

/-- Record state reached by `compute_derived` as it arrives at entry `i`,
then the rest of the loop. -/
theorem compute_derived_split (row : Row) (locked : List String) (i : ℕ)
    (h : i < FORMULAS.length) :
    compute_derived row locked =
      computeList (FORMULAS.drop (i + 1))
        (applyEntry locked (computeUpTo i row locked) (FORMULAS.get ⟨i, h⟩)) locked := by
  rw [compute_derived]
  conv_lhs => rw [show FORMULAS = FORMULAS.take i ++ FORMULAS.drop i from
    (List.take_append_drop _ _).symm]
  rw [computeList_append, List.drop_eq_getElem_cons h, computeList_cons]
  rfl

/-- When evaluating entry `i`'s formula fails at the point the loop reaches
it, the final record holds NaN at that entry's key. -/
theorem lookup_final_nan (row : Row) (locked : List String) (i : ℕ)
    (h : i < FORMULAS.length)
    (hl : (FORMULAS.get ⟨i, h⟩).1 ∉ locked)
    (he : eval (FORMULAS.get ⟨i, h⟩).2 (computeUpTo i row locked) = none) :
    lookupR (compute_derived row locked) (FORMULAS.get ⟨i, h⟩).1 = some Val.nan := by
  rw [compute_derived_split row locked i h,
    computeList_lookup_of_not_key _ _ _ _ (key_not_in_drop i h),
    applyEntry_not_locked _ _ _ hl, lookupR_setR_self]
  simp only [List.get_eq_getElem] at he
  simp [evalN, he]

/-! ### Idempotence machinery -/

/-- Check, entry by entry, that every field a formula reads is neither its
own key nor the key of any later entry: reads refer only to earlier keys or
to external (base) fields.  This is the registry's declared-order invariant
(spec section 3). -/
def orderRespecting : List (String × Expr) → Bool
  | [] => true
  | p :: rest =>
      ((directFields p.2).all fun f => decide (f ∉ (p :: rest).map Prod.fst))
      && orderRespecting rest

theorem FORMULAS_orderRespecting : orderRespecting FORMULAS = true :=
  of_decide_eq_true (by with_unfolding_all rfl)

theorem computeList_rerun (l : List (String × Expr))
    (hnd : (l.map Prod.fst).Nodup) (hor : orderRespecting l = true) (r0 : Row) :
    computeList l (computeList l r0 []) [] = computeList l r0 [] := by
  induction l generalizing r0 with
  | nil => rfl
  | cons p l ih =>
      rw [List.map_cons, List.nodup_cons] at hnd
      rw [orderRespecting, Bool.and_eq_true] at hor
      have hreads : ∀ f ∈ directFields p.2, f ≠ p.1 ∧ f ∉ l.map Prod.fst := by
        intro f hf
        have := of_decide_eq_true (List.all_eq_true.mp hor.1 f hf)
        rw [List.map_cons, List.mem_cons, not_or] at this
        exact this
      have hnotlocked : p.1 ∉ ([] : List String) := List.not_mem_nil _
      rw [computeList_cons, computeList_cons]
      rw [applyEntry_not_locked _ _ _ hnotlocked]
      have hlook : lookupR (computeList l (applyEntry [] r0 p) []) p.1
          = some (evalN p.2 r0) := by
        rw [computeList_lookup_of_not_key _ _ _ _ hnd.1,
          applyEntry_not_locked _ _ _ hnotlocked, lookupR_setR_self]
      have heq : eval p.2 (computeList l (applyEntry [] r0 p) []) = eval p.2 r0 := by
        refine eval_congr _ _ _ fun f hf => ?_
        rcases hreads f hf with ⟨h1, h2⟩
        rw [computeList_lookup_of_not_key _ _ _ _ h2,
          applyEntry_not_locked _ _ _ hnotlocked, lookupR_setR_ne _ _ _ _ h1]
      have hstep : setR (computeList l (applyEntry [] r0 p) []) p.1
          (evalN p.2 (computeList l (applyEntry [] r0 p) []))
          = computeList l (applyEntry [] r0 p) [] := by
        rw [show evalN p.2 (computeList l (applyEntry [] r0 p) []) = evalN p.2 r0 from
          by rw [evalN, evalN, heq]]
        exact setR_id _ _ _ hlook
      rw [hstep]
      exact ih hnd.2 hor.2 _

/-- Final value of an unlocked registry entry: whatever its formula
evaluates to (or NaN) at the record state the loop reaches it with. -/
theorem lookup_final_eval (row : Row) (locked : List String) (i : ℕ)
    (h : i < FORMULAS.length)
    (hl : (FORMULAS.get ⟨i, h⟩).1 ∉ locked) :
    lookupR (compute_derived row locked) (FORMULAS.get ⟨i, h⟩).1
      = some (evalN (FORMULAS.get ⟨i, h⟩).2 (computeUpTo i row locked)) := by
  rw [compute_derived_split row locked i h,
    computeList_lookup_of_not_key _ _ _ _ (key_not_in_drop i h),
    applyEntry_not_locked _ _ _ hl, lookupR_setR_self]

/-! ### Concrete records and claim-support definitions -/

/-- Scenario A base inputs (spec section 8). -/
def scenarioA : Row := [
  ("out_docs", Val.num 100), ("out_non_docs", Val.num 200),
  ("in_docs", Val.num 50), ("in_non_docs", Val.num 150),
  ("out_air", Val.num 40), ("out_surface", Val.num 160),
  ("in_air", Val.num 20), ("in_surface", Val.num 130),
  ("out_ndx_out_vol", Val.num 300), ("out_ndx_vol_wt", Val.num 900),
  ("in_ndx_out_vol", Val.num 250), ("in_ndx_vol_wt", Val.num 750),
  ("sorter", Val.num 1), ("at", Val.num 20)
]

/-- Scenario A with the base input `in_non_docs` removed. -/
def scenarioA_noInNonDocs : Row := [
  ("out_docs", Val.num 100), ("out_non_docs", Val.num 200),
  ("in_docs", Val.num 50),
  ("out_air", Val.num 40), ("out_surface", Val.num 160),
  ("in_air", Val.num 20), ("in_surface", Val.num 130),
  ("out_ndx_out_vol", Val.num 300), ("out_ndx_vol_wt", Val.num 900),
  ("in_ndx_out_vol", Val.num 250), ("in_ndx_vol_wt", Val.num 750),
  ("sorter", Val.num 1), ("at", Val.num 20)
]

/-- Lookup in an association list of dependency lists. -/
def lookupDeps : List (String × List String) → String → Option (List String)
  | [], _ => none
  | (k', ds) :: rest, k => if k' = k then some ds else lookupDeps rest k

/-- One step of the dependency-closure accumulation: a read of an
already-processed registry key contributes that key's external fields, any
other read contributes itself. -/
def depsStep (acc : List (String × List String)) (p : String × Expr) :
    List (String × List String) :=
  acc ++ [(p.1, ((directFields p.2).map fun f =>
    match lookupDeps acc f with
    | some ds => ds
    | none => [f]).flatten)]

/-- For each registry key, in declared order, the external (base) fields it
reads directly or transitively through earlier keys. -/
def DEP_CLOSURE : List (String × List String) :=
  FORMULAS.foldl depsStep []

/-- External fields required, directly or transitively, by registry key `k`. -/
def requiredBase (k : String) : List String :=
  match lookupDeps DEP_CLOSURE k with
  | some ds => ds
  | none => []

/-- The registry keys whose formula is a top-level application of the
rounding helper: the twelve directional per-day throughput fields and the
ten manpower-in-units fields. -/
def roundedKeys : List String := [
  "out_per_day_docs", "out_per_day_non_docs", "out_per_day_air",
  "out_per_day_surface", "out_per_day_ndx_out_vol", "out_per_day_ndx_vol_wt",
  "in_per_day_docs", "in_per_day_non_docs", "in_per_day_air",
  "in_per_day_surface", "in_per_day_ndx_out_vol", "in_per_day_ndx_vol_wt",
  "manpower_in_units_cd_unit", "manpower_in_units_with_sorter_sorter_unit",
  "manpower_in_units_with_sorter_non_cony",
  "manpower_in_units_with_no_sorter_manual_sorting_units",
  "manpower_in_units_skidder_unit", "manpower_in_units_xray_unit",
  "manpower_in_units_air_unit", "manpower_in_units_surface_unit",
  "manpower_in_units_doc_unit", "manpower_in_units_exception_han_unit"
]

/-- Whether a formula is, at top level, a call of the rounding helper. -/
def isRoundupTop : Expr → Bool
  | Expr.roundupE _ _ => true
  | _ => false

/-- Names bound by the `safe_globals` dict of `compute_derived`
(`{'roundup': roundup, 'max': max, 'sum': sum}`). -/
def safeGlobalsNames : List String := ["roundup", "max", "sum"]

/-- Names bound by the locals dict `{'row': row}` passed to the expression
evaluator. -/
def localsNames : List String := ["row"]

/-- Modelled from Python semantics: `eval(expr, globals, locals)` inserts a
binding for the key `__builtins__` into a globals dict that lacks it — as
`safe_globals` does — so every name of the `builtins` module also resolves
inside an evaluated expression.  These are the builtin callables and types
of CPython 3. -/
def pythonBuiltinNames : List String := [
  "abs", "aiter", "all", "anext", "any", "ascii", "bin", "bool",
  "breakpoint", "bytearray", "bytes", "callable", "chr", "classmethod",
  "compile", "complex", "delattr", "dict", "dir", "divmod", "enumerate",
  "eval", "exec", "filter", "float", "format", "frozenset", "getattr",
  "globals", "hasattr", "hash", "help", "hex", "id", "input", "int",
  "isinstance", "issubclass", "iter", "len", "list", "locals", "map",
  "max", "memoryview", "min", "next", "object", "oct", "open", "ord",
  "pow", "print", "property", "range", "repr", "reversed", "round",
  "set", "setattr", "slice", "sorted", "staticmethod", "str", "sum",
  "super", "tuple", "type", "vars", "zip", "__import__"
]

/-- Identifier resolution during formula evaluation, as the source sets it
up: the locals dict, then the caller-supplied globals, then the implicitly
injected builtins. -/
def resolvesDuringEval (n : String) : Bool :=
  decide (n ∈ localsNames) || decide (n ∈ safeGlobalsNames)
    || decide (n ∈ pythonBuiltinNames)

/-! ### Claims -/

/-- C1: for every input record and every locked-key set, `compute_derived`
never propagates an evaluation failure to its caller: when evaluating the
formula of (unlocked) entry `i` fails at the state the loop reaches it with
— a referenced field absent, a division by zero, a ceiling of NaN — the
final record holds NaN at exactly that entry's key, and every other
unlocked registry entry is still evaluated and receives a value. -/
theorem C1_fail_soft_never_raises (row : Row) (locked : List String) (i : ℕ)
    (h : i < FORMULAS.length)
    (hl : (FORMULAS.get ⟨i, h⟩).1 ∉ locked)
    (he : eval (FORMULAS.get ⟨i, h⟩).2 (computeUpTo i row locked) = none) :
    lookupR (compute_derived row locked) (FORMULAS.get ⟨i, h⟩).1 = some Val.nan
    ∧ ∀ j (hj : j < FORMULAS.length), (FORMULAS.get ⟨j, hj⟩).1 ∉ locked →
        (lookupR (compute_derived row locked) (FORMULAS.get ⟨j, hj⟩).1).isSome = true := by
  refine ⟨lookup_final_nan row locked i h hl he, fun j hj hjl => ?_⟩
  exact computeList_present _ _ _ _ (List.get_mem _ _ _) hjl

/-- Witness for C1 at the empty record: entry 0 (`in_avg_wt_cn`) fails on
the missing `in_ndx_vol_wt`, is stored as NaN, and a later unlocked entry
(`out_avg_wt_cn`, entry 1) still receives a value. -/
theorem C1_fail_soft_never_raises_witness :
    lookupR (compute_derived [] []) "in_avg_wt_cn" = some Val.nan
    ∧ (lookupR (compute_derived [] []) "out_avg_wt_cn").isSome = true := by
  have h := C1_fail_soft_never_raises [] [] 0 (by decide) (by decide) rfl
  exact ⟨h.1, h.2 1 (by decide) (by decide)⟩

/-- C2 counterexample: for the empty input record with `in_avg_wt_cn`
locked, the returned record does not contain a value for the registry key
`in_avg_wt_cn` — a locked key absent from the input stays absent, so the
output does not hold a value for every registry key. -/
theorem C2_counterexample :
    "in_avg_wt_cn" ∈ FORMULAS.map Prod.fst
    ∧ lookupR (compute_derived [] ["in_avg_wt_cn"]) "in_avg_wt_cn" = none :=
  of_decide_eq_true (by with_unfolding_all rfl)

/-- C2 (amended): provided every locked key has a value in the input
record, the record returned by `compute_derived` contains a value for every
registry key — locked keys hold exactly the caller-supplied value, every
other registry key holds its computed value or NaN. -/
theorem C2_complete_output (row : Row) (locked : List String)
    (hlocked : ∀ k ∈ locked, (lookupR row k).isSome = true) :
    ∀ k ∈ FORMULAS.map Prod.fst,
      (lookupR (compute_derived row locked) k).isSome = true
      ∧ (k ∈ locked → lookupR (compute_derived row locked) k = lookupR row k) := by
  intro k hk
  refine ⟨?_, fun hkl => computeList_lookup_locked _ _ _ _ hkl⟩
  by_cases hkl : k ∈ locked
  · rw [compute_derived, computeList_lookup_locked _ _ _ _ hkl]
    exact hlocked k hkl
  · rcases List.mem_map.mp hk with ⟨p, hp, hpk⟩
    subst hpk
    exact computeList_present _ _ _ _ hp hkl

/-- Witness for C2 (amended) with `in_avg_wt_cn` locked to 7. -/
theorem C2_complete_output_witness :
    (∀ k ∈ ["in_avg_wt_cn"], (lookupR [("in_avg_wt_cn", Val.num 7)] k).isSome = true)
    ∧ ((lookupR (compute_derived [("in_avg_wt_cn", Val.num 7)] ["in_avg_wt_cn"])
          "in_avg_wt_cn").isSome = true
      ∧ ("in_avg_wt_cn" ∈ ["in_avg_wt_cn"] →
          lookupR (compute_derived [("in_avg_wt_cn", Val.num 7)] ["in_avg_wt_cn"])
            "in_avg_wt_cn" = lookupR [("in_avg_wt_cn", Val.num 7)] "in_avg_wt_cn")) :=
  ⟨by decide, C2_complete_output _ _ (by decide) "in_avg_wt_cn" (by decide)⟩

/-- C3: lock fidelity — for any key `k` locked with value `v` present in the
record, the evaluated record still maps `k` to exactly `v`, whatever `k`'s
formula is: the loop skips the formula of every locked key. -/
theorem C3_lock_fidelity (row : Row) (locked : List String) (k : String) (v : Val)
    (hk : k ∈ locked) (hv : lookupR row k = some v) :
    lookupR (compute_derived row locked) k = some v := by
  rw [compute_derived, computeList_lookup_locked _ _ _ _ hk, hv]

/-- Witness for C3: `per_day_ndx` locked to 12 survives evaluation as 12,
although its formula would fail on this record. -/
theorem C3_lock_fidelity_witness :
    ("per_day_ndx" ∈ ["per_day_ndx"]
      ∧ lookupR [("per_day_ndx", Val.num 12)] "per_day_ndx" = some (Val.num 12))
    ∧ lookupR (compute_derived [("per_day_ndx", Val.num 12)] ["per_day_ndx"])
        "per_day_ndx" = some (Val.num 12) :=
  ⟨⟨by decide, by decide⟩, C3_lock_fidelity _ _ _ _ (by decide) (by decide)⟩

/-- C4 counterexample: `in_non_docs` is a Base Input Field required
transitively by `per_day_ndx` (through `in_per_day_non_docs`), yet
evaluating Scenario A without it leaves `per_day_ndx = 8`, not NaN: the
failed `in_per_day_non_docs` becomes NaN, but Python's `max` returns its
first argument when the comparison with NaN is false, so the NaN in the
second argument is discarded and does not propagate. -/
theorem C4_counterexample :
    "in_non_docs" ∈ BASE_INPUT_FIELDS
    ∧ "in_non_docs" ∈ requiredBase "per_day_ndx"
    ∧ lookupR scenarioA_noInNonDocs "in_non_docs" = none
    ∧ lookupR (compute_derived scenarioA_noInNonDocs []) "in_per_day_non_docs"
        = some Val.nan
    ∧ lookupR (compute_derived scenarioA_noInNonDocs []) "per_day_ndx"
        = some (Val.num 8)
    ∧ Val.num 8 ≠ Val.nan :=
  of_decide_eq_true (by with_unfolding_all rfl)

/-- C4 (amended): removing an external (non-registry) field `b` forces NaN,
without raising, at every unlocked registry key whose formula reads `b`
directly; NaN then propagates through the arithmetic operators and `sum`,
but not necessarily through `max`, which discards a NaN second argument. -/
theorem C4_missing_direct_input_gives_nan (row : Row) (locked : List String)
    (b : String) (i : ℕ) (h : i < FORMULAS.length)
    (hl : (FORMULAS.get ⟨i, h⟩).1 ∉ locked)
    (hb : b ∈ directFields (FORMULAS.get ⟨i, h⟩).2)
    (hreg : b ∉ FORMULAS.map Prod.fst)
    (hrow : lookupR row b = none) :
    lookupR (compute_derived row locked) (FORMULAS.get ⟨i, h⟩).1 = some Val.nan := by
  refine lookup_final_nan row locked i h hl ?_
  refine eval_none_of_missing _ _ b hb ?_
  have hsub : b ∉ (FORMULAS.take i).map Prod.fst := fun hbt => by
    rw [List.map_take] at hbt
    exact hreg (List.take_subset _ _ hbt)
  rw [computeUpTo, computeList_lookup_of_not_key _ _ _ _ hsub]
  exact hrow

/-- Witness for C4 (amended): entry 2 (`packet`) reads the base field
`in_docs` directly; with `in_docs` absent, `packet` is NaN. -/
theorem C4_missing_direct_input_gives_nan_witness :
    ("in_docs" ∈ directFields (FORMULAS.get ⟨2, by decide⟩).2
      ∧ "in_docs" ∉ FORMULAS.map Prod.fst)
    ∧ lookupR (compute_derived [] []) "packet" = some Val.nan :=
  ⟨⟨by decide, by decide⟩,
    C4_missing_direct_input_gives_nan [] [] "in_docs" 2 (by decide) (by decide)
      (by decide) (by decide) rfl⟩

/-- C5: the registry formulas themselves only mention the four intended
identifiers (`roundup`, `max`, `sum`, `row`), but the claim that no other
identifier resolves during formula evaluation fails on the code: the
globals dict `safe_globals` carries no `__builtins__` key, so CPython's
`eval` injects the builtins module and a builtin name such as `abs`
resolves inside a formula expression. -/
theorem C5_namespace_leak :
    resolvesDuringEval "abs" = true
    ∧ "abs" ∉ safeGlobalsNames ++ localsNames
    ∧ (FORMULAS.all fun p => (identsOf p.2).all
        fun n => decide (n ∈ safeGlobalsNames ++ localsNames)) = true :=
  of_decide_eq_true (by with_unfolding_all rfl)

/-- C6 counterexample: `per_day_air` is a per-day throughput field of the
registry, computed as `out_per_day_air / 12` with no rounding; on Scenario
A its stored value is 1/6 — not an integer and not a fixed point of the
rounding helper — so the helper is not applied to every per-day figure. -/
theorem C6_counterexample :
    "per_day_air" ∈ FORMULAS.map Prod.fst
    ∧ lookupR (compute_derived scenarioA []) "per_day_air" = some (Val.num (1/6))
    ∧ roundup (Val.num (1/6)) 0 = some (Val.num 1)
    ∧ Val.num 1 ≠ Val.num (1/6) :=
  of_decide_eq_true (by with_unfolding_all rfl)

/-- C6 (amended): the rounding helper is applied, at 0 digits and at the
top level of the formula, to exactly the twelve directional per-day
throughput fields and the ten manpower-in-units fields; every value the
helper produces at 0 digits is an integer and a fixed point of the helper.
The aggregate `per_day_packet`, `per_day_bag_doc`, `per_day_bag_non_doc`
and `per_day_air` fields are not rounded. -/
theorem C6_roundup_coverage :
    (∀ p ∈ FORMULAS, (isRoundupTop p.2 = true ↔ p.1 ∈ roundedKeys))
    ∧ ∀ (q : ℚ) (w : Val), roundup (Val.num q) 0 = some w →
        (∃ z : ℤ, w = Val.num (z : ℚ)) ∧ roundup w 0 = some w := by
  refine ⟨of_decide_eq_true (by with_unfolding_all rfl), ?_⟩
  intro q w hw
  simp only [roundup, pow_zero, mul_one, div_one, Option.some_inj] at hw
  subst hw
  refine ⟨⟨⌈q⌉, rfl⟩, ?_⟩
  simp [roundup, Int.ceil_intCast]

/-- Witness for C6 (amended): the first rounded entry `out_per_day_docs`
is a top-level `roundup`, and `roundup(3/2, 0) = 2` is an integer and a
fixed point. -/
theorem C6_roundup_coverage_witness :
    (("out_per_day_docs",
        Expr.roundupE (Expr.div (Expr.rowF "out_docs") (Expr.lit 25)) 0) ∈ FORMULAS
      ∧ roundup (Val.num (3/2)) 0 = some (Val.num 2))
    ∧ (isRoundupTop
        (Expr.roundupE (Expr.div (Expr.rowF "out_docs") (Expr.lit 25)) 0) = true
        ↔ "out_per_day_docs" ∈ roundedKeys)
    ∧ ((∃ z : ℤ, Val.num 2 = Val.num (z : ℚ))
      ∧ roundup (Val.num 2) 0 = some (Val.num 2)) := by
  refine ⟨⟨of_decide_eq_true (by with_unfolding_all rfl),
    of_decide_eq_true (by with_unfolding_all rfl)⟩, ?_, ?_⟩
  · exact C6_roundup_coverage.1
      ("out_per_day_docs",
        Expr.roundupE (Expr.div (Expr.rowF "out_docs") (Expr.lit 25)) 0)
      (of_decide_eq_true (by with_unfolding_all rfl))
  · exact C6_roundup_coverage.2 (3/2) (Val.num 2)
      (of_decide_eq_true (by with_unfolding_all rfl))

/-- C7: the rounding helper computes the ceiling at the given decimal
precision — `roundup(x, d) = ceil(x * 10^d) / 10^d`, hence
`roundup(x, d) ≥ x` — and at 0 digits `roundup(24.01) = 25`,
`roundup(25) = 25`, `roundup(0) = 0`. -/
theorem C7_roundup_ceiling : ∀ (x : ℚ) (d : ℕ),
    roundup (Val.num x) d
      = some (Val.num ((⌈x * (10 : ℚ) ^ d⌉ : ℚ) / (10 : ℚ) ^ d))
    ∧ x ≤ (⌈x * (10 : ℚ) ^ d⌉ : ℚ) / (10 : ℚ) ^ d
    ∧ roundup (Val.num (2401/100)) 0 = some (Val.num 25)
    ∧ roundup (Val.num 25) 0 = some (Val.num 25)
    ∧ roundup (Val.num 0) 0 = some (Val.num 0) := by
  intro x d
  have h10 : (0 : ℚ) < (10 : ℚ) ^ d := by positivity
  refine ⟨rfl, ?_, of_decide_eq_true (by with_unfolding_all rfl),
    of_decide_eq_true (by with_unfolding_all rfl),
    of_decide_eq_true (by with_unfolding_all rfl)⟩
  have hle : x * (10 : ℚ) ^ d ≤ (⌈x * (10 : ℚ) ^ d⌉ : ℚ) := Int.le_ceil _
  calc x = x * (10 : ℚ) ^ d / (10 : ℚ) ^ d := by field_simp
    _ ≤ (⌈x * (10 : ℚ) ^ d⌉ : ℚ) / (10 : ℚ) ^ d := by gcongr

/-- C8: both staffing totals are computed unconditionally — their formulas
never read the `sorter` flag — as the sum of the ten manpower-in-units
intermediates minus the intermediates that do not apply:
`manpower_with_sorter` subtracts the manual-sorting intermediate, and
`manpower_without_sorter` subtracts the sorter-unit and non-cony
intermediates, each total reading the intermediates' final values. -/
theorem C8_branch_free_totals (row : Row) (locked : List String)
    (h1 : "manpower_with_sorter" ∉ locked)
    (h2 : "manpower_without_sorter" ∉ locked)
    (v1 v2 v3 v4 v5 v6 v7 v8 v9 v10 : Val)
    (hv1 : lookupR (compute_derived row locked) "manpower_in_units_cd_unit" = some v1)
    (hv2 : lookupR (compute_derived row locked) "manpower_in_units_with_sorter_sorter_unit" = some v2)
    (hv3 : lookupR (compute_derived row locked) "manpower_in_units_with_sorter_non_cony" = some v3)
    (hv4 : lookupR (compute_derived row locked) "manpower_in_units_with_no_sorter_manual_sorting_units" = some v4)
    (hv5 : lookupR (compute_derived row locked) "manpower_in_units_skidder_unit" = some v5)
    (hv6 : lookupR (compute_derived row locked) "manpower_in_units_xray_unit" = some v6)
    (hv7 : lookupR (compute_derived row locked) "manpower_in_units_air_unit" = some v7)
    (hv8 : lookupR (compute_derived row locked) "manpower_in_units_surface_unit" = some v8)
    (hv9 : lookupR (compute_derived row locked) "manpower_in_units_doc_unit" = some v9)
    (hv10 : lookupR (compute_derived row locked) "manpower_in_units_exception_han_unit" = some v10) :
    lookupR (compute_derived row locked) "manpower_with_sorter"
      = some (vsub (vsum [v1, v2, v3, v4, v5, v6, v7, v8, v9, v10]) v4)
    ∧ lookupR (compute_derived row locked) "manpower_without_sorter"
      = some (vsub (vsub (vsum [v1, v2, v3, v4, v5, v6, v7, v8, v9, v10]) v2) v3)
    ∧ (∀ p ∈ FORMULAS,
        (p.1 = "manpower_with_sorter" ∨ p.1 = "manpower_without_sorter") →
        "sorter" ∉ directFields p.2) := by
  have h45 : (45 : ℕ) < FORMULAS.length := by decide
  have h46 : (46 : ℕ) < FORMULAS.length := by decide
  have hE46 : FORMULAS.get ⟨45, h45⟩ = ("manpower_with_sorter",
      Expr.sub (Expr.sumRows ["manpower_in_units_cd_unit",
        "manpower_in_units_with_sorter_sorter_unit",
        "manpower_in_units_with_sorter_non_cony",
        "manpower_in_units_with_no_sorter_manual_sorting_units",
        "manpower_in_units_skidder_unit", "manpower_in_units_xray_unit",
        "manpower_in_units_air_unit", "manpower_in_units_surface_unit",
        "manpower_in_units_doc_unit", "manpower_in_units_exception_han_unit"])
        (Expr.rowF "manpower_in_units_with_no_sorter_manual_sorting_units")) := rfl
  have hE47 : FORMULAS.get ⟨46, h46⟩ = ("manpower_without_sorter",
      Expr.sub (Expr.sub (Expr.sumRows ["manpower_in_units_cd_unit",
        "manpower_in_units_with_sorter_sorter_unit",
        "manpower_in_units_with_sorter_non_cony",
        "manpower_in_units_with_no_sorter_manual_sorting_units",
        "manpower_in_units_skidder_unit", "manpower_in_units_xray_unit",
        "manpower_in_units_air_unit", "manpower_in_units_surface_unit",
        "manpower_in_units_doc_unit", "manpower_in_units_exception_han_unit"])
        (Expr.rowF "manpower_in_units_with_sorter_sorter_unit"))
        (Expr.rowF "manpower_in_units_with_sorter_non_cony")) := rfl
  have hout : compute_derived row locked
      = computeList (FORMULAS.drop 45) (computeUpTo 45 row locked) locked := by
    rw [compute_derived, computeUpTo, ← computeList_append, List.take_append_drop]
  have hm1 : lookupR (computeUpTo 45 row locked) "manpower_in_units_cd_unit" = some v1 := by
    rw [← computeList_lookup_of_not_key (FORMULAS.drop 45) (computeUpTo 45 row locked)
      locked _ (by decide), ← hout]
    exact hv1
  have hm2 : lookupR (computeUpTo 45 row locked) "manpower_in_units_with_sorter_sorter_unit" = some v2 := by
    rw [← computeList_lookup_of_not_key (FORMULAS.drop 45) (computeUpTo 45 row locked)
      locked _ (by decide), ← hout]
    exact hv2
  have hm3 : lookupR (computeUpTo 45 row locked) "manpower_in_units_with_sorter_non_cony" = some v3 := by
    rw [← computeList_lookup_of_not_key (FORMULAS.drop 45) (computeUpTo 45 row locked)
      locked _ (by decide), ← hout]
    exact hv3
  have hm4 : lookupR (computeUpTo 45 row locked) "manpower_in_units_with_no_sorter_manual_sorting_units" = some v4 := by
    rw [← computeList_lookup_of_not_key (FORMULAS.drop 45) (computeUpTo 45 row locked)
      locked _ (by decide), ← hout]
    exact hv4
  have hm5 : lookupR (computeUpTo 45 row locked) "manpower_in_units_skidder_unit" = some v5 := by
    rw [← computeList_lookup_of_not_key (FORMULAS.drop 45) (computeUpTo 45 row locked)
      locked _ (by decide), ← hout]
    exact hv5
  have hm6 : lookupR (computeUpTo 45 row locked) "manpower_in_units_xray_unit" = some v6 := by
    rw [← computeList_lookup_of_not_key (FORMULAS.drop 45) (computeUpTo 45 row locked)
      locked _ (by decide), ← hout]
    exact hv6
  have hm7 : lookupR (computeUpTo 45 row locked) "manpower_in_units_air_unit" = some v7 := by
    rw [← computeList_lookup_of_not_key (FORMULAS.drop 45) (computeUpTo 45 row locked)
      locked _ (by decide), ← hout]
    exact hv7
  have hm8 : lookupR (computeUpTo 45 row locked) "manpower_in_units_surface_unit" = some v8 := by
    rw [← computeList_lookup_of_not_key (FORMULAS.drop 45) (computeUpTo 45 row locked)
      locked _ (by decide), ← hout]
    exact hv8
  have hm9 : lookupR (computeUpTo 45 row locked) "manpower_in_units_doc_unit" = some v9 := by
    rw [← computeList_lookup_of_not_key (FORMULAS.drop 45) (computeUpTo 45 row locked)
      locked _ (by decide), ← hout]
    exact hv9
  have hm10 : lookupR (computeUpTo 45 row locked) "manpower_in_units_exception_han_unit" = some v10 := by
    rw [← computeList_lookup_of_not_key (FORMULAS.drop 45) (computeUpTo 45 row locked)
      locked _ (by decide), ← hout]
    exact hv10
  have hmws : lookupR (compute_derived row locked) "manpower_with_sorter"
      = some (evalN (FORMULAS.get ⟨45, h45⟩).2 (computeUpTo 45 row locked)) :=
    lookup_final_eval row locked 45 h45 h1
  have hev46 : evalN (FORMULAS.get ⟨45, h45⟩).2 (computeUpTo 45 row locked)
      = vsub (vsum [v1, v2, v3, v4, v5, v6, v7, v8, v9, v10]) v4 := by
    rw [hE46]
    simp [evalN, eval, lookupMany, hm1, hm2, hm3, hm4, hm5, hm6, hm7, hm8, hm9, hm10]
  have h46eq : computeUpTo 46 row locked
      = applyEntry locked (computeUpTo 45 row locked) (FORMULAS.get ⟨45, h45⟩) := by
    rw [computeUpTo, computeUpTo,
      show FORMULAS.take 46 = FORMULAS.take 45 ++ [FORMULAS.get ⟨45, h45⟩] from rfl,
      computeList_append, computeList_cons, computeList_nil]
  have hm'1 : lookupR (computeUpTo 46 row locked) "manpower_in_units_cd_unit" = some v1 := by
    rw [h46eq, hE46, applyEntry_not_locked _ _ _ h1, lookupR_setR_ne _ _ _ _ (by decide)]
    exact hm1
  have hm'2 : lookupR (computeUpTo 46 row locked) "manpower_in_units_with_sorter_sorter_unit" = some v2 := by
    rw [h46eq, hE46, applyEntry_not_locked _ _ _ h1, lookupR_setR_ne _ _ _ _ (by decide)]
    exact hm2
  have hm'3 : lookupR (computeUpTo 46 row locked) "manpower_in_units_with_sorter_non_cony" = some v3 := by
    rw [h46eq, hE46, applyEntry_not_locked _ _ _ h1, lookupR_setR_ne _ _ _ _ (by decide)]
    exact hm3
  have hm'4 : lookupR (computeUpTo 46 row locked) "manpower_in_units_with_no_sorter_manual_sorting_units" = some v4 := by
    rw [h46eq, hE46, applyEntry_not_locked _ _ _ h1, lookupR_setR_ne _ _ _ _ (by decide)]
    exact hm4
  have hm'5 : lookupR (computeUpTo 46 row locked) "manpower_in_units_skidder_unit" = some v5 := by
    rw [h46eq, hE46, applyEntry_not_locked _ _ _ h1, lookupR_setR_ne _ _ _ _ (by decide)]
    exact hm5
  have hm'6 : lookupR (computeUpTo 46 row locked) "manpower_in_units_xray_unit" = some v6 := by
    rw [h46eq, hE46, applyEntry_not_locked _ _ _ h1, lookupR_setR_ne _ _ _ _ (by decide)]
    exact hm6
  have hm'7 : lookupR (computeUpTo 46 row locked) "manpower_in_units_air_unit" = some v7 := by
    rw [h46eq, hE46, applyEntry_not_locked _ _ _ h1, lookupR_setR_ne _ _ _ _ (by decide)]
    exact hm7
  have hm'8 : lookupR (computeUpTo 46 row locked) "manpower_in_units_surface_unit" = some v8 := by
    rw [h46eq, hE46, applyEntry_not_locked _ _ _ h1, lookupR_setR_ne _ _ _ _ (by decide)]
    exact hm8
  have hm'9 : lookupR (computeUpTo 46 row locked) "manpower_in_units_doc_unit" = some v9 := by
    rw [h46eq, hE46, applyEntry_not_locked _ _ _ h1, lookupR_setR_ne _ _ _ _ (by decide)]
    exact hm9
  have hm'10 : lookupR (computeUpTo 46 row locked) "manpower_in_units_exception_han_unit" = some v10 := by
    rw [h46eq, hE46, applyEntry_not_locked _ _ _ h1, lookupR_setR_ne _ _ _ _ (by decide)]
    exact hm10
  have hmwos : lookupR (compute_derived row locked) "manpower_without_sorter"
      = some (evalN (FORMULAS.get ⟨46, h46⟩).2 (computeUpTo 46 row locked)) :=
    lookup_final_eval row locked 46 h46 h2
  have hev47 : evalN (FORMULAS.get ⟨46, h46⟩).2 (computeUpTo 46 row locked)
      = vsub (vsub (vsum [v1, v2, v3, v4, v5, v6, v7, v8, v9, v10]) v2) v3 := by
    rw [hE47]
    simp [evalN, eval, lookupMany, hm'1, hm'2, hm'3, hm'4, hm'5, hm'6, hm'7, hm'8,
      hm'9, hm'10]
  refine ⟨hmws.trans (by rw [hev46]), hmwos.trans (by rw [hev47]),
    of_decide_eq_true (by with_unfolding_all rfl)⟩

/-- Witness for C8 at the empty record (all ten intermediates are NaN). -/
theorem C8_branch_free_totals_witness :
    lookupR (compute_derived [] []) "manpower_in_units_cd_unit" = some Val.nan
    ∧ lookupR (compute_derived [] []) "manpower_with_sorter"
        = some (vsub (vsum [Val.nan, Val.nan, Val.nan, Val.nan, Val.nan, Val.nan,
            Val.nan, Val.nan, Val.nan, Val.nan]) Val.nan)
    ∧ lookupR (compute_derived [] []) "manpower_without_sorter"
        = some (vsub (vsub (vsum [Val.nan, Val.nan, Val.nan, Val.nan, Val.nan,
            Val.nan, Val.nan, Val.nan, Val.nan, Val.nan]) Val.nan) Val.nan) := by
  have h := C8_branch_free_totals [] [] (by decide) (by decide)
    Val.nan Val.nan Val.nan Val.nan Val.nan Val.nan Val.nan Val.nan Val.nan Val.nan
    (of_decide_eq_true (by with_unfolding_all rfl))
    (of_decide_eq_true (by with_unfolding_all rfl))
    (of_decide_eq_true (by with_unfolding_all rfl))
    (of_decide_eq_true (by with_unfolding_all rfl))
    (of_decide_eq_true (by with_unfolding_all rfl))
    (of_decide_eq_true (by with_unfolding_all rfl))
    (of_decide_eq_true (by with_unfolding_all rfl))
    (of_decide_eq_true (by with_unfolding_all rfl))
    (of_decide_eq_true (by with_unfolding_all rfl))
    (of_decide_eq_true (by with_unfolding_all rfl))
  exact ⟨of_decide_eq_true (by with_unfolding_all rfl), h.1, h.2.1⟩

/-- C9: idempotence — re-running `compute_derived` with an empty locked set
on an already evaluated record (base inputs present and unchanged)
reproduces exactly the same record: every formula reads only base inputs
and earlier registry keys, and neither changes between the runs. -/
theorem C9_idempotent (row : Row)
    (_hbase : ∀ b ∈ BASE_INPUT_FIELDS, (lookupR row b).isSome = true) :
    compute_derived (compute_derived row []) [] = compute_derived row [] :=
  computeList_rerun FORMULAS FORMULAS_keys_nodup FORMULAS_orderRespecting row

/-- Witness for C9 at the Scenario A record. -/
theorem C9_idempotent_witness :
    (∀ b ∈ BASE_INPUT_FIELDS, (lookupR scenarioA b).isSome = true)
    ∧ compute_derived (compute_derived scenarioA []) [] = compute_derived scenarioA [] :=
  ⟨by decide, C9_idempotent scenarioA (by decide)⟩

/-- C10: frame — `compute_derived` writes only registry keys: any field
name that is not a registry key (in particular every Base Input Field, none
of which is a registry key, and any extra caller-supplied field) keeps
after evaluation exactly the value, and the presence or absence, it had
before. -/
theorem C10_frame (row : Row) (locked : List String) (k : String)
    (hk : k ∉ FORMULAS.map Prod.fst) :
    lookupR (compute_derived row locked) k = lookupR row k
    ∧ ∀ b ∈ BASE_INPUT_FIELDS, b ∉ FORMULAS.map Prod.fst :=
  ⟨computeList_lookup_of_not_key _ _ _ _ hk,
    of_decide_eq_true (by with_unfolding_all rfl)⟩

/-- Witness for C10: the base input `out_docs` is untouched. -/
theorem C10_frame_witness :
    ("out_docs" ∉ FORMULAS.map Prod.fst)
    ∧ lookupR (compute_derived [("out_docs", Val.num 100)] []) "out_docs"
        = lookupR [("out_docs", Val.num 100)] "out_docs" :=
  ⟨by decide, (C10_frame [("out_docs", Val.num 100)] [] "out_docs" (by decide)).1⟩
